import Mathlib

/-!
Verification of the fan-control core of `clevo-indicator.c`.

The definitions below are a shallow embedding of the C source:

* the EC register/port constants and the unit-conversion functions
  `calculate_fan_duty`, `calculate_fan_rpms`;
* the hysteresis controller `ec_auto_duty_adjust` (its body, as a pure
  function of effective temperature and current duty, is `next_duty`);
* the bounded-polling handshake `ec_io_wait` and the register read/write
  sequences `ec_io_read` / `ec_io_do`, with the status-port byte stream
  passed in explicitly and the command/data port operations recorded as a
  list of `PortOp`;
* the shared-state block `ShareInfo`, the UI command `ui_command_set_fan`,
  and one iteration of the privileged worker loop `main_ec_worker_cycle`.

C `int` fields are embedded as `Int`; raw register bytes as `Nat`.
-/

namespace ClevoIndicator

/-- Port address `EC_SC` (0x66), the EC command/status port. -/
def EC_SC : Nat := 0x66

/-- Port address `EC_DATA` (0x62), the EC data port. -/
def EC_DATA : Nat := 0x62

/-- Bit index of the input-buffer-full flag in the status byte. -/
def IBF : Nat := 1

/-- Bit index of the output-buffer-full flag in the status byte. -/
def OBF : Nat := 0

/-- Command byte for a register read. -/
def EC_SC_READ_CMD : Nat := 0x80

/-- Register offset of the CPU temperature byte. -/
def EC_REG_CPU_TEMP : Nat := 0x07

/-- Register offset of the GPU temperature byte. -/
def EC_REG_GPU_TEMP : Nat := 0xCD

/-- Register offset of the raw fan-duty byte. -/
def EC_REG_FAN_DUTY : Nat := 0xCE

/-- Register offset of the high RPM byte. -/
def EC_REG_FAN_RPMS_HI : Nat := 0xD0

/-- Register offset of the low RPM byte. -/
def EC_REG_FAN_RPMS_LO : Nat := 0xD1

/-- C `EXIT_SUCCESS`. -/
def EXIT_SUCCESS : Nat := 0

/-- C `EXIT_FAILURE`. -/
def EXIT_FAILURE : Nat := 1

/-- Embedding of `calculate_fan_duty`: the C source computes
`(int)((double)raw_duty / 255.0 * 100.0)`.  For every byte `raw_duty` in
[0,255] the IEEE-double expression truncates to exactly the rational floor
`raw_duty * 100 / 255` (the quotient is never close enough to an integer
for the double rounding error, bounded by a few ulps, to cross it, and at
the exactly-integer quotients the product rounds to the exact integer), so
the embedding uses natural-number division. -/
def calculate_fan_duty (raw_duty : Nat) : Nat :=
  raw_duty * 100 / 255

/-- Embedding of `calculate_fan_rpms`: combines the two bytes as
`(raw_rpm_high << 8) + raw_rpm_low` and returns `2156220 / raw_rpm` for a
positive raw count, `0` otherwise (guarding the division by zero). -/
def calculate_fan_rpms (raw_rpm_high raw_rpm_low : Nat) : Nat :=
  let raw_rpm := (raw_rpm_high <<< 8) + raw_rpm_low
  if raw_rpm > 0 then 2156220 / raw_rpm else 0

/-- Body of `ec_auto_duty_adjust` as the pure controller of spec section 4.3:
`temp` is the effective temperature `MAX(cpu_temp, gpu_temp)` and `duty` the
current duty; the result is the new duty, with `0` meaning "no change". -/
def next_duty (temp duty : Int) : Int :=
  if temp ≥ 80 ∧ duty < 100 then 100
  else if temp ≥ 70 ∧ (duty < 90 ∨ (temp ≤ 75 ∧ duty > 90)) then 90
  else if temp ≥ 60 ∧ (duty < 80 ∨ (temp ≤ 65 ∧ duty > 80)) then 80
  else if temp ≥ 50 ∧ (duty < 70 ∨ (temp ≤ 55 ∧ duty > 70)) then 70
  else if temp ≥ 40 ∧ (duty < 60 ∨ (temp ≤ 45 ∧ duty > 60)) then 60
  else if temp ≥ 30 ∧ (duty < 50 ∨ (temp ≤ 35 ∧ duty > 50)) then 50
  else 0

/-- The stage table of the claim, read literally: top-down, first match wins;
a stage `(T, D)` fires when `temp ≥ T ∧ duty < D` (escalation) or when
`temp ≤ T + 5 ∧ duty > D` (release), with no lower bound on `temp` in the
release arm. -/
def next_duty_claimed (temp duty : Int) : Int :=
  if (temp ≥ 80 ∧ duty < 100) ∨ (temp ≤ 85 ∧ duty > 100) then 100
  else if (temp ≥ 70 ∧ duty < 90) ∨ (temp ≤ 75 ∧ duty > 90) then 90
  else if (temp ≥ 60 ∧ duty < 80) ∨ (temp ≤ 65 ∧ duty > 80) then 80
  else if (temp ≥ 50 ∧ duty < 70) ∨ (temp ≤ 55 ∧ duty > 70) then 70
  else if (temp ≥ 40 ∧ duty < 60) ∨ (temp ≤ 45 ∧ duty > 60) then 60
  else if (temp ≥ 30 ∧ duty < 50) ∨ (temp ≤ 35 ∧ duty > 50) then 50
  else 0

/-- The stage table amended so that the release arm of stage `(T, D)` also
requires `temp ≥ T` - a stage fires when `temp ≥ T ∧ duty < D` (escalation)
or when `T ≤ temp ≤ T + 5 ∧ duty > D` (release) - and so that the top
stage (boundary 80, duty 100) has no release arm at all. -/
def next_duty_amended (temp duty : Int) : Int :=
  if temp ≥ 80 ∧ duty < 100 then 100
  else if (temp ≥ 70 ∧ duty < 90) ∨ (temp ≥ 70 ∧ temp ≤ 75 ∧ duty > 90) then 90
  else if (temp ≥ 60 ∧ duty < 80) ∨ (temp ≥ 60 ∧ temp ≤ 65 ∧ duty > 80) then 80
  else if (temp ≥ 50 ∧ duty < 70) ∨ (temp ≥ 50 ∧ temp ≤ 55 ∧ duty > 70) then 70
  else if (temp ≥ 40 ∧ duty < 60) ∨ (temp ≥ 40 ∧ temp ≤ 45 ∧ duty > 60) then 60
  else if (temp ≥ 30 ∧ duty < 50) ∨ (temp ≥ 30 ∧ temp ≤ 35 ∧ duty > 50) then 50
  else 0

/-- An operation on the EC command or data port: `outb value port` writes a
byte, `inb port` reads one.  The status-port polling reads performed inside
`ec_io_wait` are modelled by its byte-stream argument and are not recorded
here. -/
inductive PortOp where
  | outb (value : Nat) (port : Nat)
  | inb (port : Nat)
  deriving DecidableEq, Repr

/-- Loop of `ec_io_wait`.  `bytes j` is the byte the j-th `inb` of the
status port returns; `i` is the C loop counter (the invariant is that the
byte currently held in `data` is `bytes i`).  The result is the final value
of `i`.  `fuel` only makes the recursion structural: the C loop performs at
most 101 reads, so starting the fuel at 101 never exhausts it. -/
def ec_io_wait_go (bytes : Nat → Nat) (flag value : Nat) (i : Nat) (fuel : Nat) : Nat :=
  match fuel with
  | 0 => i
  | fuel + 1 =>
    if (bytes i >>> flag) &&& 1 ≠ value then
      if i < 100 then ec_io_wait_go bytes flag value (i + 1) fuel else i + 1
    else i

/-- Embedding of `ec_io_wait`: polls the status byte stream until the
selected bit equals `value` or the counter passes 100, then reports
`EXIT_FAILURE` when the final counter is at least 100 and `EXIT_SUCCESS`
otherwise. -/
def ec_io_wait (bytes : Nat → Nat) (flag value : Nat) : Nat :=
  if ec_io_wait_go bytes flag value 0 101 ≥ 100 then EXIT_FAILURE else EXIT_SUCCESS

/-- Embedding of `ec_io_read`.  `waits k` is the status byte stream seen by
the k-th `ec_io_wait` call, and `data_byte` the byte the final `inb` of the
data port yields.  As in the C source, the three wait results are computed
and discarded, so every port operation of the sequence is performed whether
or not the waits time out. -/
def ec_io_read (waits : Nat → Nat → Nat) (port : Nat) (data_byte : Nat) :
    Nat × List PortOp :=
  let _w1 := ec_io_wait (waits 0) IBF 0
  let _w2 := ec_io_wait (waits 1) IBF 0
  let _w3 := ec_io_wait (waits 2) OBF 1
  (data_byte,
   [PortOp.outb EC_SC_READ_CMD EC_SC, PortOp.outb port EC_DATA, PortOp.inb EC_DATA])

/-- Embedding of `ec_io_do`: writes `cmd` to the command port and `port`,
`value` to the data port, each write gated by a wait whose result is
discarded, and returns the result of the final wait. -/
def ec_io_do (waits : Nat → Nat → Nat) (cmd port : Nat) (value : Nat) :
    Nat × List PortOp :=
  let _w1 := ec_io_wait (waits 0) IBF 0
  let _w2 := ec_io_wait (waits 1) IBF 0
  let _w3 := ec_io_wait (waits 2) IBF 0
  (ec_io_wait (waits 3) IBF 0,
   [PortOp.outb cmd EC_SC, PortOp.outb port EC_DATA, PortOp.outb value EC_DATA])

/-- Embedding of `ec_write_fan_duty`: rejects a duty outside [60,100] with
`EXIT_FAILURE` and no port operation; otherwise converts the percentage to
the raw byte `(int)((double)duty / 100.0 * 255.0)` - which for every duty in
[60,100] truncates to exactly `duty * 255 / 100` - and issues the write
sequence `ec_io_do 0x99 0x01 raw`. -/
def ec_write_fan_duty (waits : Nat → Nat → Nat) (duty_percentage : Int) :
    Nat × List PortOp :=
  if duty_percentage < 60 ∨ duty_percentage > 100 then (EXIT_FAILURE, [])
  else ec_io_do waits 0x99 0x01 (duty_percentage * 255 / 100).toNat

/-- The shared memory block `share_info` (every field a C `int`). -/
structure ShareInfo where
  exit : Int
  cpu_temp : Int
  gpu_temp : Int
  fan_duty : Int
  fan_rpms : Int
  auto_duty : Int
  auto_duty_val : Int
  manual_next_fan_duty : Int
  manual_prev_fan_duty : Int
  deriving DecidableEq, Repr

/-- The block as initialized by `main_init_share`. -/
def main_init_share : ShareInfo :=
  { exit := 0, cpu_temp := 0, gpu_temp := 0, fan_duty := 0, fan_rpms := 0,
    auto_duty := 1, auto_duty_val := 0,
    manual_next_fan_duty := 0, manual_prev_fan_duty := 0 }

/-- Embedding of `ec_auto_duty_adjust`: reads the shared temperatures and
duty and applies the controller. -/
def ec_auto_duty_adjust (s : ShareInfo) : Int :=
  next_duty (max s.cpu_temp s.gpu_temp) s.fan_duty

/-- Embedding of `ui_command_set_fan`: option `0` selects AUTO mode, any
other option selects manual mode with that duty as the pending command. -/
def ui_command_set_fan (fan_duty : Int) (s : ShareInfo) : ShareInfo :=
  if fan_duty = 0 then
    { s with auto_duty := 1, manual_next_fan_duty := 0 }
  else
    { s with auto_duty := 0, manual_next_fan_duty := fan_duty }

/-- The manual duty options offered by the `menuitems` table. -/
def menu_manual_options : List Int := [60, 70, 80, 90, 100]

/-- The "write" step of one `main_ec_worker` iteration: when a pending
manual duty is nonzero and differs from the previously applied one, the
duty is written (result ignored) and recorded as previously applied. -/
def worker_manual_phase (waits : Nat → Nat → Nat) (s : ShareInfo) :
    ShareInfo × List PortOp :=
  let new_fan_duty := s.manual_next_fan_duty
  if new_fan_duty ≠ 0 ∧ new_fan_duty ≠ s.manual_prev_fan_duty then
    ({ s with manual_prev_fan_duty := new_fan_duty },
     (ec_write_fan_duty waits new_fan_duty).2)
  else (s, [])

/-- The "read" step of one `main_ec_worker` iteration on a successful
0x100-byte bulk read: `buf` is the register file, and the four readings are
published into the shared block. -/
def worker_read_phase (buf : Nat → Nat) (s : ShareInfo) : ShareInfo :=
  { s with
    cpu_temp := (buf EC_REG_CPU_TEMP : Int),
    gpu_temp := (buf EC_REG_GPU_TEMP : Int),
    fan_duty := (calculate_fan_duty (buf EC_REG_FAN_DUTY) : Int),
    fan_rpms := (calculate_fan_rpms (buf EC_REG_FAN_RPMS_HI) (buf EC_REG_FAN_RPMS_LO) : Int) }

/-- The "auto" step of one `main_ec_worker` iteration: in AUTO mode, when
the controller proposes a nonzero duty differing from the last
automatically applied one, the duty is written (result ignored) and
recorded in `auto_duty_val`. -/
def worker_auto_phase (waits : Nat → Nat → Nat) (s : ShareInfo) :
    ShareInfo × List PortOp :=
  if s.auto_duty = 1 then
    let next_duty_val := ec_auto_duty_adjust s
    if next_duty_val ≠ 0 ∧ next_duty_val ≠ s.auto_duty_val then
      ({ s with auto_duty_val := next_duty_val },
       (ec_write_fan_duty waits next_duty_val).2)
    else (s, [])
  else (s, [])

/-- One iteration of the `main_ec_worker` loop (manual write, bulk read,
auto adjust).  Returns the new shared state, the port operations of the
manual write, and the port operations of the automatic write. -/
def main_ec_worker_cycle (waits : Nat → Nat → Nat) (buf : Nat → Nat) (s : ShareInfo) :
    ShareInfo × List PortOp × List PortOp :=
  let m := worker_manual_phase waits s
  let s2 := worker_read_phase buf m.1
  let a := worker_auto_phase waits s2
  (a.1, m.2, a.2)

/-- The raw register snapshot of the end-to-end scenario: cpu byte 45, gpu
byte 50, duty byte 204, rpm bytes 0x02 and 0x50. -/
def snapshot_scenario : Nat → Nat := fun r =>
  if r = EC_REG_CPU_TEMP then 45
  else if r = EC_REG_GPU_TEMP then 50
  else if r = EC_REG_FAN_DUTY then 204
  else if r = EC_REG_FAN_RPMS_HI then 0x02
  else if r = EC_REG_FAN_RPMS_LO then 0x50
  else 0

/-! Helper lemmas -/

/-- Or-ing a multiple of `2 ^ n` with a value below `2 ^ n` is addition. -/
theorem mul_two_pow_lor_eq_add (n : Nat) :
    ∀ a b : Nat, b < 2 ^ n → a * 2 ^ n ||| b = a * 2 ^ n + b := by
  induction n with
  | zero =>
    intro a b hb
    have hb0 : b = 0 := by omega
    subst hb0
    simp
  | succ n ih =>
    intro a b hb
    have hpow : 2 ^ (n + 1) = 2 * 2 ^ n := by ring
    have hd : b / 2 < 2 ^ n := by omega
    have hbit : Nat.bit (Nat.bodd b) (Nat.div2 b) = b := Nat.bit_decomp b
    have ha : a * 2 ^ (n + 1) = Nat.bit false (a * 2 ^ n) := by
      rw [Nat.bit_val]
      simp only [Bool.toNat_false, Nat.add_zero]
      ring
    have hmod : (Nat.bodd b).toNat + 2 * (b / 2) = b := by
      have h := Nat.bodd_add_div2 b
      rwa [Nat.div2_val] at h
    calc a * 2 ^ (n + 1) ||| b
        = Nat.bit false (a * 2 ^ n) ||| Nat.bit (Nat.bodd b) (Nat.div2 b) := by
          rw [hbit, ← ha]
      _ = Nat.bit (false || Nat.bodd b) ((a * 2 ^ n) ||| Nat.div2 b) :=
          Nat.lor_bit false (a * 2 ^ n) (Nat.bodd b) (Nat.div2 b)
      _ = Nat.bit (Nat.bodd b) (a * 2 ^ n + b / 2) := by
          rw [Bool.false_or, Nat.div2_val, ih a (b / 2) hd]
      _ = a * 2 ^ (n + 1) + b := by
          rw [Nat.bit_val]
          have h2 : a * 2 ^ (n + 1) = 2 * (a * 2 ^ n) := by rw [hpow]; ring
          omega

/-- Every nonzero result of the controller is one of the six stage duties,
and carries the temperature range that can produce it. -/
theorem next_duty_shape (temp duty : Int) :
    next_duty temp duty = 0 ∨
    (next_duty temp duty = 100 ∧ 80 ≤ temp) ∨
    (next_duty temp duty = 90 ∧ 70 ≤ temp ∧ temp < 80) ∨
    (next_duty temp duty = 80 ∧ 60 ≤ temp ∧ temp < 70) ∨
    (next_duty temp duty = 70 ∧ 50 ≤ temp ∧ temp < 60) ∨
    (next_duty temp duty = 60 ∧ 40 ≤ temp ∧ temp < 50) ∨
    (next_duty temp duty = 50 ∧ 30 ≤ temp ∧ temp < 40) := by
  unfold next_duty
  split_ifs <;> omega

/-- At stage duty 100 with temperature at least 80 nothing fires. -/
theorem next_duty_settled_100 (temp : Int) (h : 80 ≤ temp) :
    next_duty temp 100 = 0 := by
  unfold next_duty
  split_ifs <;> omega

/-- At stage duty 90 with temperature in [70,80) nothing fires. -/
theorem next_duty_settled_90 (temp : Int) (h1 : 70 ≤ temp) (h2 : temp < 80) :
    next_duty temp 90 = 0 := by
  unfold next_duty
  split_ifs <;> omega

/-- At stage duty 80 with temperature in [60,70) nothing fires. -/
theorem next_duty_settled_80 (temp : Int) (h1 : 60 ≤ temp) (h2 : temp < 70) :
    next_duty temp 80 = 0 := by
  unfold next_duty
  split_ifs <;> omega

/-- At stage duty 70 with temperature in [50,60) nothing fires. -/
theorem next_duty_settled_70 (temp : Int) (h1 : 50 ≤ temp) (h2 : temp < 60) :
    next_duty temp 70 = 0 := by
  unfold next_duty
  split_ifs <;> omega

/-- At stage duty 60 with temperature in [40,50) nothing fires. -/
theorem next_duty_settled_60 (temp : Int) (h1 : 40 ≤ temp) (h2 : temp < 50) :
    next_duty temp 60 = 0 := by
  unfold next_duty
  split_ifs <;> omega

/-- At stage duty 50 with temperature in [30,40) nothing fires. -/
theorem next_duty_settled_50 (temp : Int) (h1 : 30 ≤ temp) (h2 : temp < 40) :
    next_duty temp 50 = 0 := by
  unfold next_duty
  split_ifs <;> omega

/-- Unfolding equation of `ec_io_wait_go` at exhausted fuel. -/
theorem ec_io_wait_go_zero (bytes : Nat → Nat) (flag value i : Nat) :
    ec_io_wait_go bytes flag value i 0 = i := rfl

/-- Unfolding equation of `ec_io_wait_go` at positive fuel. -/
theorem ec_io_wait_go_succ (bytes : Nat → Nat) (flag value i fuel : Nat) :
    ec_io_wait_go bytes flag value i (fuel + 1) =
      if (bytes i >>> flag) &&& 1 ≠ value then
        if i < 100 then ec_io_wait_go bytes flag value (i + 1) fuel else i + 1
      else i := rfl

/-- The final loop counter of the wait loop started at counter `i` (with
fuel covering the remaining iterations) is below 100 exactly when the
selected bit matches the expected value at one of the status reads of index
below 100 and at least `i`. -/
theorem ec_io_wait_go_lt_iff (bytes : Nat → Nat) (flag value : Nat) :
    ∀ n i, i + n = 100 →
      (ec_io_wait_go bytes flag value i (n + 1) < 100 ↔
        ∃ j, i ≤ j ∧ j < 100 ∧ (bytes j >>> flag) &&& 1 = value) := by
  intro n
  induction n with
  | zero =>
    intro i hi
    have hi' : i = 100 := by omega
    subst hi'
    rw [ec_io_wait_go_succ]
    by_cases hb : (bytes 100 >>> flag) &&& 1 = value
    · rw [if_neg (not_not_intro hb)]
      constructor
      · intro h
        omega
      · rintro ⟨j, hj1, hj2, _⟩
        omega
    · rw [if_pos hb, if_neg (by omega)]
      constructor
      · intro h
        omega
      · rintro ⟨j, hj1, hj2, _⟩
        omega
  | succ n ih =>
    intro i hi
    have hlt : i < 100 := by omega
    rw [ec_io_wait_go_succ]
    by_cases hb : (bytes i >>> flag) &&& 1 = value
    · rw [if_neg (not_not_intro hb)]
      constructor
      · intro _
        exact ⟨i, Nat.le_refl i, hlt, hb⟩
      · intro _
        exact hlt
    · rw [if_pos hb, if_pos hlt, ih (i + 1) (by omega)]
      constructor
      · rintro ⟨j, hj1, hj2, hj3⟩
        exact ⟨j, by omega, hj2, hj3⟩
      · rintro ⟨j, hj1, hj2, hj3⟩
        refine ⟨j, ?_, hj2, hj3⟩
        rcases Nat.eq_or_lt_of_le hj1 with heq | h
        · subst heq
          exact absurd hj3 hb
        · omega

/-- A duty request outside [60,100] is rejected with no port operation. -/
theorem ec_write_fan_duty_reject (waits : Nat → Nat → Nat) (p : Int)
    (h : p < 60 ∨ 100 < p) :
    ec_write_fan_duty waits p = (EXIT_FAILURE, []) := by
  unfold ec_write_fan_duty
  rw [if_pos (by omega)]

/-- A duty request inside [60,100] issues the full write sequence. -/
theorem ec_write_fan_duty_accept (waits : Nat → Nat → Nat) (p : Int)
    (h1 : 60 ≤ p) (h2 : p ≤ 100) :
    (ec_write_fan_duty waits p).2 =
      [PortOp.outb 0x99 EC_SC, PortOp.outb 0x01 EC_DATA,
       PortOp.outb (p * 255 / 100).toNat EC_DATA] := by
  unfold ec_write_fan_duty ec_io_do
  rw [if_neg (by omega)]

/-! Claim theorems -/

/-- C1 counterexample: at effective temperature 50 and duty 95 the code
releases to 70 (the release arm of a stage also requires the temperature to
have reached that stage's boundary), while the claim's table, read
literally with its release condition `temp ≤ T + 5 ∧ duty > D` and first
match winning, selects the 90-stage; and at effective temperature 82 and
duty 105 the code changes nothing (its top stage has no release arm), while
the claim's table returns 100. -/
theorem stage_table_claim_counterexample :
    (next_duty 50 95 = 70 ∧ next_duty_claimed 50 95 = 90) ∧
    (next_duty 82 105 = 0 ∧ next_duty_claimed 82 105 = 100) := by decide

set_option maxHeartbeats 2000000 in
/-- C1 amended: the controller equals the claim's top-down first-match
stage table once the release condition of stage `(T, D)` is amended from
`temp ≤ T + 5 ∧ duty > D` to `T ≤ temp ≤ T + 5 ∧ duty > D` and the release
arm of the top stage (boundary 80, duty 100) is dropped. -/
theorem next_duty_eq_amended_stage_table (temp duty : Int) :
    next_duty temp duty = next_duty_amended temp duty := by
  unfold next_duty next_duty_amended
  split_ifs <;> omega

/-- C2 counterexample: on the raw snapshot the RPM conversion yields
`2156220 / 592 = 3642`, not 3643, and the controller at effective
temperature 50 and duty 80 returns 70, not "no change". -/
theorem snapshot_scenario_counterexample :
    calculate_fan_rpms 0x02 0x50 ≠ 3643 ∧ next_duty 50 80 ≠ 0 := by decide

/-- C2 amended: publishing the raw snapshot {cpu 45, gpu 50, duty 204,
rpm 0x02 0x50} yields the readings {45, 50, 80%, 3642 RPM}, and on those
readings the controller releases to 70 (temperature 50 lies in the
release band of the 70-duty stage while the duty 80 exceeds 70). -/
theorem snapshot_scenario_amended :
    (worker_read_phase snapshot_scenario main_init_share).cpu_temp = 45 ∧
    (worker_read_phase snapshot_scenario main_init_share).gpu_temp = 50 ∧
    (worker_read_phase snapshot_scenario main_init_share).fan_duty = 80 ∧
    (worker_read_phase snapshot_scenario main_init_share).fan_rpms = 3642 ∧
    ec_auto_duty_adjust (worker_read_phase snapshot_scenario main_init_share) = 70 := by
  decide

/-- C3: for every raw duty byte in [0,255] the conversion is the floor of
`b / 255 * 100`, and the conversion is monotonically non-decreasing. -/
theorem calculate_fan_duty_floor_and_monotone :
    (∀ b : Nat, b ≤ 255 → calculate_fan_duty b = ⌊((b : ℚ) / 255) * 100⌋₊) ∧
    (∀ b b' : Nat, b ≤ b' → calculate_fan_duty b ≤ calculate_fan_duty b') := by
  constructor
  · intro b _
    have h : ((b : ℚ) / 255) * 100 = ((b * 100 : Nat) : ℚ) / ((255 : Nat) : ℚ) := by
      push_cast
      ring
    rw [h, Nat.floor_div_nat, Nat.floor_natCast]
    rfl
  · intro b b' hbb
    exact Nat.div_le_div_right (Nat.mul_le_mul_right 100 hbb)

/-- C3 witness at the bytes 204 and 255. -/
theorem calculate_fan_duty_floor_and_monotone_witness :
    calculate_fan_duty 204 = ⌊((204 : ℚ) / 255) * 100⌋₊ ∧
    calculate_fan_duty 204 ≤ calculate_fan_duty 255 :=
  ⟨calculate_fan_duty_floor_and_monotone.1 204 (by decide),
   calculate_fan_duty_floor_and_monotone.2 204 255 (by decide)⟩

/-- C4: for raw bytes the combination `(hi <<< 8) + lo` of the code equals
the claim's `(hi <<< 8) ||| lo`; a zero raw count maps to 0; a positive raw
count maps to `2156220 / raw`; and the result is monotonically
non-increasing in the raw count over positive raw counts. -/
theorem calculate_fan_rpms_spec_and_antitone :
    (∀ hi lo : Nat, lo < 256 → (hi <<< 8) ||| lo = (hi <<< 8) + lo) ∧
    (∀ hi lo : Nat, (hi <<< 8) + lo = 0 → calculate_fan_rpms hi lo = 0) ∧
    (∀ hi lo : Nat, 0 < (hi <<< 8) + lo →
      calculate_fan_rpms hi lo = 2156220 / ((hi <<< 8) + lo)) ∧
    (∀ hi lo hi' lo' : Nat, 0 < (hi <<< 8) + lo →
      (hi <<< 8) + lo ≤ (hi' <<< 8) + lo' →
      calculate_fan_rpms hi' lo' ≤ calculate_fan_rpms hi lo) := by
  refine ⟨?_, ?_, ?_, ?_⟩
  · intro hi lo hlo
    rw [Nat.shiftLeft_eq]
    exact mul_two_pow_lor_eq_add 8 hi lo hlo
  · intro hi lo h0
    unfold calculate_fan_rpms
    simp only [h0]
    rfl
  · intro hi lo hpos
    unfold calculate_fan_rpms
    rw [if_pos hpos]
  · intro hi lo hi' lo' hpos hle
    unfold calculate_fan_rpms
    rw [if_pos hpos, if_pos (by omega)]
    exact Nat.div_le_div_left hle hpos

/-- C4 witness: byte combination at (0x02, 0x50), the zero raw count, the
positive raw count 592, and antitonicity from 592 to 593. -/
theorem calculate_fan_rpms_spec_and_antitone_witness :
    (2 <<< 8) ||| 80 = (2 <<< 8) + 80 ∧
    calculate_fan_rpms 0 0 = 0 ∧
    calculate_fan_rpms 2 80 = 2156220 / ((2 <<< 8) + 80) ∧
    calculate_fan_rpms 2 81 ≤ calculate_fan_rpms 2 80 :=
  ⟨calculate_fan_rpms_spec_and_antitone.1 2 80 (by omega),
   calculate_fan_rpms_spec_and_antitone.2.1 0 0 (by omega),
   calculate_fan_rpms_spec_and_antitone.2.2.1 2 80 (by omega),
   calculate_fan_rpms_spec_and_antitone.2.2.2 2 80 2 81 (by omega) (by omega)⟩

/-- C5: a requested manual duty is accepted exactly for 60 <= p <= 100; a
rejected request performs no port operation and returns `EXIT_FAILURE` to
the caller, while an accepted request issues the duty-write sequence to the
EC ports. -/
theorem ec_write_fan_duty_range_gate (waits : Nat → Nat → Nat) (p : Int) :
    (p < 60 ∨ 100 < p → ec_write_fan_duty waits p = (EXIT_FAILURE, [])) ∧
    (60 ≤ p → p ≤ 100 →
      (ec_write_fan_duty waits p).2 =
        [PortOp.outb 0x99 EC_SC, PortOp.outb 0x01 EC_DATA,
         PortOp.outb (p * 255 / 100).toNat EC_DATA]) := by
  exact ⟨ec_write_fan_duty_reject waits p, ec_write_fan_duty_accept waits p⟩

/-- C5 witness: 59 and 101 are rejected with no port operation, 60 and 100
are accepted and written. -/
theorem ec_write_fan_duty_range_gate_witness :
    ec_write_fan_duty (fun _ _ => 0) 59 = (EXIT_FAILURE, []) ∧
    ec_write_fan_duty (fun _ _ => 0) 101 = (EXIT_FAILURE, []) ∧
    (ec_write_fan_duty (fun _ _ => 0) 60).2 =
      [PortOp.outb 0x99 EC_SC, PortOp.outb 0x01 EC_DATA,
       PortOp.outb ((60 : Int) * 255 / 100).toNat EC_DATA] ∧
    (ec_write_fan_duty (fun _ _ => 0) 100).2 =
      [PortOp.outb 0x99 EC_SC, PortOp.outb 0x01 EC_DATA,
       PortOp.outb ((100 : Int) * 255 / 100).toNat EC_DATA] :=
  ⟨(ec_write_fan_duty_range_gate (fun _ _ => 0) 59).1 (by omega),
   (ec_write_fan_duty_range_gate (fun _ _ => 0) 101).1 (by omega),
   (ec_write_fan_duty_range_gate (fun _ _ => 0) 60).2 (by omega) (by omega),
   (ec_write_fan_duty_range_gate (fun _ _ => 0) 100).2 (by omega) (by omega)⟩

/-- C7: the controller is idempotent across a transition: a nonzero result,
fed back as the current duty at the same temperature, yields "no change";
and the controller is a pure function, so a "no change" result repeats on
the same inputs. -/
theorem next_duty_idempotent (temp duty : Int) :
    (next_duty temp duty ≠ 0 → next_duty temp (next_duty temp duty) = 0) ∧
    (next_duty temp duty = 0 → next_duty temp duty = 0) := by
  constructor
  · intro h
    rcases next_duty_shape temp duty with h0 | ⟨e, ht⟩ | ⟨e, ht1, ht2⟩ |
      ⟨e, ht1, ht2⟩ | ⟨e, ht1, ht2⟩ | ⟨e, ht1, ht2⟩ | ⟨e, ht1, ht2⟩
    · exact absurd h0 h
    · rw [e]; exact next_duty_settled_100 temp ht
    · rw [e]; exact next_duty_settled_90 temp ht1 ht2
    · rw [e]; exact next_duty_settled_80 temp ht1 ht2
    · rw [e]; exact next_duty_settled_70 temp ht1 ht2
    · rw [e]; exact next_duty_settled_60 temp ht1 ht2
    · rw [e]; exact next_duty_settled_50 temp ht1 ht2
  · intro h
    exact h

/-- C7 witness: the escalation 50 -> 80 at temperature 65 settles, and at
temperature 30 with duty 50 the controller already reports no change. -/
theorem next_duty_idempotent_witness :
    next_duty 65 (next_duty 65 50) = 0 ∧ next_duty 30 50 = 0 :=
  ⟨(next_duty_idempotent 65 50).1 (by decide),
   (next_duty_idempotent 30 50).2 (by decide)⟩

/-- C8: feeding the controller the effective-temperature sequence
[30, 65, 75, 65, 55] from duty 50 (updating the duty with each nonzero
result) produces the duty trace [50, 50, 80, 90, 80, 70]: no change at 30,
escalation to 80 (at least 80) at 65, no de-escalation below 80 at the
second 65 sample (it releases 90 -> 80, still at the 80 floor), and a
release below the held duty 80 only at the 55 sample, where 55 lies in the
release band [50, 55] of the 70-duty stage and the held duty exceeds 70. -/
theorem hysteresis_sequence_trace :
    List.scanl (fun d t => if next_duty t d = 0 then d else next_duty t d)
        50 [30, 65, 75, 65, 55] = [50, 50, 80, 90, 80, 70] ∧
    next_duty 30 50 = 0 ∧
    80 ≤ next_duty 65 50 ∧
    80 ≤ (if next_duty 65 90 = 0 then 90 else next_duty 65 90) ∧
    next_duty 55 80 = 70 := by decide

/-- C9: the handshake wait reports success exactly when the selected status
bit equals the expected value within the 100-iteration polling bound (among
the status reads of index 0 through 99), and a wait timeout is non-fatal:
the register read and write sequences perform all of their command/data
port operations whatever the status byte streams do. -/
theorem ec_io_wait_success_iff_and_nonfatal :
    (∀ (bytes : Nat → Nat) (flag value : Nat),
      ec_io_wait bytes flag value = EXIT_SUCCESS ↔
        ∃ j, j < 100 ∧ (bytes j >>> flag) &&& 1 = value) ∧
    (∀ (waits : Nat → Nat → Nat) (port data_byte : Nat),
      (ec_io_read waits port data_byte).2 =
        [PortOp.outb EC_SC_READ_CMD EC_SC, PortOp.outb port EC_DATA,
         PortOp.inb EC_DATA] ∧
      (ec_io_do waits 0x99 port data_byte).2 =
        [PortOp.outb 0x99 EC_SC, PortOp.outb port EC_DATA,
         PortOp.outb data_byte EC_DATA]) := by
  constructor
  · intro bytes flag value
    have h := ec_io_wait_go_lt_iff bytes flag value 100 0 rfl
    have h101 : (100 : Nat) + 1 = 101 := rfl
    rw [h101] at h
    unfold ec_io_wait
    split_ifs with hge
    · constructor
      · intro he
        exact absurd he (by decide)
      · rintro ⟨j, hj, hb⟩
        have hlt := h.mpr ⟨j, Nat.zero_le j, hj, hb⟩
        omega
    · constructor
      · intro _
        obtain ⟨j, _, hj2, hb⟩ := h.mp (by omega)
        exact ⟨j, hj2, hb⟩
      · intro _
        rfl
  · intro waits port data_byte
    exact ⟨rfl, rfl⟩

/-- C9 witness: a stream whose very first status byte has the IBF bit set
succeeds, and a register read under always-zero status streams (every wait
timing out) still performs its three port operations. -/
theorem ec_io_wait_success_iff_and_nonfatal_witness :
    ec_io_wait (fun _ => 2) IBF 1 = EXIT_SUCCESS ∧
    (ec_io_read (fun _ _ => 0) EC_REG_CPU_TEMP 45).2 =
      [PortOp.outb EC_SC_READ_CMD EC_SC, PortOp.outb EC_REG_CPU_TEMP EC_DATA,
       PortOp.inb EC_DATA] :=
  ⟨(ec_io_wait_success_iff_and_nonfatal.1 (fun _ => 2) IBF 1).mpr
      ⟨0, by decide, by decide⟩,
   (ec_io_wait_success_iff_and_nonfatal.2 (fun _ _ => 0) EC_REG_CPU_TEMP 45).1⟩

/-- C6: in an AUTO-mode cycle with no pending manual command, when the
controller proposes 50 and 50 differs from the last automatically applied
duty, the cycle performs no automatic-write port operation (the 60-percent
floor of `ec_write_fan_duty` rejects 50) yet still records 50 as the last
automatically applied duty. -/
theorem auto_duty_record_without_write (waits : Nat → Nat → Nat) (buf : Nat → Nat)
    (s : ShareInfo) (hauto : s.auto_duty = 1) (hman : s.manual_next_fan_duty = 0)
    (hnext : ec_auto_duty_adjust (worker_read_phase buf s) = 50)
    (hdiff : s.auto_duty_val ≠ 50) :
    (main_ec_worker_cycle waits buf s).2.2 = [] ∧
    (main_ec_worker_cycle waits buf s).1.auto_duty_val = 50 := by
  have hm : worker_manual_phase waits s = (s, []) := by
    simp [worker_manual_phase, hman]
  have hreadauto : (worker_read_phase buf s).auto_duty = 1 := by
    simp [worker_read_phase, hauto]
  have hreadval : (worker_read_phase buf s).auto_duty_val = s.auto_duty_val := by
    simp [worker_read_phase]
  have hcond : ec_auto_duty_adjust (worker_read_phase buf s) ≠ 0 ∧
      ec_auto_duty_adjust (worker_read_phase buf s) ≠
        (worker_read_phase buf s).auto_duty_val := by
    rw [hnext, hreadval]
    exact ⟨by omega, fun hc => hdiff hc.symm⟩
  have hwrite := ec_write_fan_duty_reject waits 50 (by omega)
  have ha : worker_auto_phase waits (worker_read_phase buf s) =
      ({ worker_read_phase buf s with
          auto_duty_val := ec_auto_duty_adjust (worker_read_phase buf s) }, []) := by
    unfold worker_auto_phase
    rw [if_pos hreadauto, if_pos hcond, hnext, hwrite]
  constructor
  · simp [main_ec_worker_cycle, hm, ha]
  · simp [main_ec_worker_cycle, hm, ha, hnext]

/-- C6 witness: from the initial shared state, a snapshot with both
temperatures 30 and duty byte 153 (60 percent) makes the controller release
to 50; the cycle issues no automatic port write yet records 50. -/
theorem auto_duty_record_without_write_witness :
    (main_ec_worker_cycle (fun _ _ => 0)
      (fun r => if r = 0x07 then 30 else if r = 0xCD then 30
                else if r = 0xCE then 153 else 0)
      main_init_share).2.2 = [] ∧
    (main_ec_worker_cycle (fun _ _ => 0)
      (fun r => if r = 0x07 then 30 else if r = 0xCD then 30
                else if r = 0xCE then 153 else 0)
      main_init_share).1.auto_duty_val = 50 :=
  auto_duty_record_without_write (fun _ _ => 0)
    (fun r => if r = 0x07 then 30 else if r = 0xCD then 30
              else if r = 0xCE then 153 else 0)
    main_init_share (by decide) (by decide) (by decide) (by decide)

/-- C10: a worker cycle whose shared state was just set by the UI to a
manual menu duty differing from the previously applied manual value writes
exactly that duty's sequence to the EC ports, records it as previously
applied, and performs no automatic-controller write in the same cycle
(selecting a manual duty clears the auto flag); and a cycle whose pending
manual duty equals the previously applied one performs no manual write. -/
theorem manual_override_precedence (waits : Nat → Nat → Nat) (buf : Nat → Nat) :
    (∀ (s0 : ShareInfo) (d : Int), d ∈ menu_manual_options →
      d ≠ s0.manual_prev_fan_duty →
      (main_ec_worker_cycle waits buf (ui_command_set_fan d s0)).2.1 =
        [PortOp.outb 0x99 EC_SC, PortOp.outb 0x01 EC_DATA,
         PortOp.outb (d * 255 / 100).toNat EC_DATA] ∧
      (main_ec_worker_cycle waits buf (ui_command_set_fan d s0)).1.manual_prev_fan_duty = d ∧
      (main_ec_worker_cycle waits buf (ui_command_set_fan d s0)).2.2 = []) ∧
    (∀ s : ShareInfo, s.manual_next_fan_duty = s.manual_prev_fan_duty →
      (main_ec_worker_cycle waits buf s).2.1 = []) := by
  constructor
  · intro s0 d hd hne
    have hd0 : d ≠ 0 ∧ 60 ≤ d ∧ d ≤ 100 := by
      simp only [menu_manual_options, List.mem_cons, List.not_mem_nil, or_false] at hd
      rcases hd with rfl | rfl | rfl | rfl | rfl <;> norm_num
    have hset : ui_command_set_fan d s0 =
        { s0 with auto_duty := 0, manual_next_fan_duty := d } := by
      unfold ui_command_set_fan
      rw [if_neg hd0.1]
    have hm : worker_manual_phase waits (ui_command_set_fan d s0) =
        ({ s0 with auto_duty := 0, manual_next_fan_duty := d, manual_prev_fan_duty := d },
         (ec_write_fan_duty waits d).2) := by
      rw [hset]
      unfold worker_manual_phase
      rw [if_pos ⟨hd0.1, hne⟩]
    have hwrite := ec_write_fan_duty_accept waits d hd0.2.1 hd0.2.2
    have ha : ∀ t : ShareInfo, t.auto_duty = 0 →
        worker_auto_phase waits t = (t, []) := by
      intro t ht
      unfold worker_auto_phase
      rw [if_neg (by simp [ht])]
    refine ⟨?_, ?_, ?_⟩
    · simp [main_ec_worker_cycle, hm, hwrite, ha, worker_read_phase]
    · simp [main_ec_worker_cycle, hm, ha, worker_read_phase]
    · simp [main_ec_worker_cycle, hm, ha, worker_read_phase]
  · intro s hs
    simp [main_ec_worker_cycle, worker_manual_phase, hs]

/-- C10 witness: selecting the 60-percent menu entry from the initial state
writes the 60-percent sequence, records 60 as previously applied, and does
no automatic write; and from the initial state itself (pending equals
previously applied) no manual write occurr in a cycle. -/
theorem manual_override_precedence_witness :
    (main_ec_worker_cycle (fun _ _ => 0) (fun _ => 0)
        (ui_command_set_fan 60 main_init_share)).2.1 =
      [PortOp.outb 0x99 EC_SC, PortOp.outb 0x01 EC_DATA,
       PortOp.outb ((60 : Int) * 255 / 100).toNat EC_DATA] ∧
    (main_ec_worker_cycle (fun _ _ => 0) (fun _ => 0)
        (ui_command_set_fan 60 main_init_share)).1.manual_prev_fan_duty = 60 ∧
    (main_ec_worker_cycle (fun _ _ => 0) (fun _ => 0)
        (ui_command_set_fan 60 main_init_share)).2.2 = [] ∧
    (main_ec_worker_cycle (fun _ _ => 0) (fun _ => 0) main_init_share).2.1 = [] :=
  ⟨((manual_override_precedence (fun _ _ => 0) (fun _ => 0)).1
      main_init_share 60 (by decide) (by decide)).1,
   ((manual_override_precedence (fun _ _ => 0) (fun _ => 0)).1
      main_init_share 60 (by decide) (by decide)).2.1,
   ((manual_override_precedence (fun _ _ => 0) (fun _ => 0)).1
      main_init_share 60 (by decide) (by decide)).2.2,
   (manual_override_precedence (fun _ _ => 0) (fun _ => 0)).2
      main_init_share (by decide)⟩

end ClevoIndicator
